import Mathlib

/-!
# Verification of the Auralis real-time vitals pipeline

Shallow embedding of the vitals streaming and distress-classification
subsystem of the Auralis repository:

* the distress threshold rule evaluated by `SmartSpectraClient` (onmessage
  handler) and `MockSmartSpectraClient.generateVitals`;
* the client connect / reconnect state machine of `SmartSpectraClient`
  (`connect`, `disconnect`, and the transport event handlers `onopen`,
  `onmessage`, `onclose`);
* the server side `SmartSpectraWebSocketServer` (`HandleMetrics` extraction,
  JSON wire encoding, `Broadcast`) and the host process `main` / `Start`
  setup sequence.

JavaScript timers, sockets and callbacks are modelled by explicit state
passing on a `ClientState` record; C++ exceptions on send are modelled by an
`Except` result per session; `JSON.parse` failure is modelled by an
`Option Json` payload (`none` = the parse threw and the surrounding
try/catch confined it).  Machine floats (confidence values, rate estimates)
are modelled as rationals; `static_cast<int>` is truncation toward zero.
-/

/-! ## DistressClassifier

Embeds the expression `data.pulse > 100 && data.breathing > 20` that appears
verbatim in `SmartSpectraClient` (onmessage, part_009 line 58) and in
`MockSmartSpectraClient.generateVitals` (part_007 line 117). -/

def isDistressed (pulse breathing : ℤ) : Bool :=
  decide (pulse > 100) && decide (breathing > 20)

/-! ## JSON value model

The wire protocol is one JSON object per message.  `Json` models the value
produced by a successful `JSON.parse`; a payload that fails to parse is
represented as `none` at the use sites. -/

inductive Json : Type where
  | null : Json
  | bool (b : Bool) : Json
  | num (q : ℚ) : Json
  | str (s : String) : Json
  | arr (elems : List Json) : Json
  | obj (fields : List (String × Json)) : Json

/-- First binding of a key in an object's field list. -/
def jLookup : List (String × Json) → String → Option Json
  | [], _ => none
  | (k, v) :: rest, key => if k = key then some v else jLookup rest key

/-- Property access `data.k` on a parsed value: yields the field of an
object, `none` (JS `undefined`) otherwise.  (On JS `null` the access throws,
but the thrown error is confined by the same try/catch that confines parse
errors, so the observable behaviour — no callback fired — coincides with
`none`.) -/
def jField (j : Json) (key : String) : Option Json :=
  match j with
  | Json.obj fields => jLookup fields key
  | _ => none

/-- The `data.type` discriminator as compared by `data.type === "vitals"`:
a strict string comparison, so a missing or non-string field never matches. -/
def jTypeField (j : Json) : Option String :=
  match jField j "type" with
  | some (Json.str s) => some s
  | _ => none

/-- A numeric field of the payload.  A missing field is JS `undefined` and a
non-numeric field yields `NaN` under the `>` comparison; both make the
comparison false, which this model renders as `none`.  (JS would coerce a
numeric string; no claim exercises that corner.) -/
def jNumField (j : Json) (key : String) : Option ℚ :=
  match jField j key with
  | some (Json.num q) => some q
  | _ => none

/-! ## SmartSpectraClient state machine (part_009)

`ClientState` carries the two mutable fields of the class (`this.ws`,
`this.reconnectTimer`) plus observation counters for the registered
consumer callbacks and for `new WebSocket(...)` constructions.

`timerField` is the stored timeout handle tagged with its delay in ms
(`none` = the field is null); `timerPending` records whether that timeout is
still scheduled.  The two are distinct because the timer callback in the
source never nulls `this.reconnectTimer` when it fires. -/

inductive ReadyState : Type where
  | connecting : ReadyState
  | isOpen : ReadyState
deriving DecidableEq, Repr

structure ClientState where
  wsState : Option ReadyState
  timerField : Option ℕ
  timerPending : Bool
  connectedCalls : ℕ
  disconnectedCalls : ℕ
  vitalsCalls : ℕ
  distressCalls : ℕ
  traceCalls : ℕ
  transportsOpened : ℕ
  lastDistress : Option Bool
deriving DecidableEq, Repr

/-- A freshly constructed client: both fields null, no callback fired yet. -/
def initClient : ClientState :=
  { wsState := none, timerField := none, timerPending := false,
    connectedCalls := 0, disconnectedCalls := 0, vitalsCalls := 0,
    distressCalls := 0, traceCalls := 0, transportsOpened := 0,
    lastDistress := none }

/-- `connect()`: early return only when `this.ws?.readyState === WebSocket.OPEN`;
otherwise `new WebSocket(this.url)` replaces the handle (a CONNECTING socket
does not trigger the guard). -/
def connect (st : ClientState) : ClientState :=
  if st.wsState = some ReadyState.isOpen then st
  else { st with wsState := some ReadyState.connecting,
                 transportsOpened := st.transportsOpened + 1 }

/-- The `onopen` handler: fire the connected callback, then clear any stored
reconnect timer (`clearTimeout` plus nulling the field). -/
def onOpen (st : ClientState) : ClientState :=
  { st with wsState := some ReadyState.isOpen,
            connectedCalls := st.connectedCalls + 1,
            timerField := none,
            timerPending := false }

/-- The `onclose` handler: fire the disconnected callback, null `this.ws`,
and schedule a 3000 ms reconnect — but only when the `reconnectTimer` field
is null (`if (!this.reconnectTimer)`). -/
def onClose (st : ClientState) : ClientState :=
  let st1 := { st with disconnectedCalls := st.disconnectedCalls + 1,
                       wsState := none }
  if st1.timerField = none then
    { st1 with timerField := some 3000, timerPending := true }
  else st1

/-- The reconnect timeout fires: the callback calls `this.connect()` but
does not null `this.reconnectTimer`, so the spent handle stays stored. -/
def timerFires (st : ClientState) : ClientState :=
  if st.timerPending then connect { st with timerPending := false }
  else st

/-- `disconnect()`: `clearTimeout` and null the timer field, then
`this.ws.close()` and null the handle when a socket is present.  The close
event that `close()` triggers on that socket is a separate later event
(`onClose`). -/
def disconnect (st : ClientState) : ClientState :=
  let st1 := { st with timerField := none, timerPending := false }
  match st1.wsState with
  | some _ => { st1 with wsState := none }
  | none => st1

/-- The distress expression of the onmessage handler,
`data.pulse > 100 && data.breathing > 20`, on the parsed payload.
A missing or non-numeric operand makes the JS comparison false. -/
def distressOf (data : Json) : Bool :=
  match jNumField data "pulse", jNumField data "breathing" with
  | some p, some b => decide (p > 100) && decide (b > 20)
  | _, _ => false

/-- The `onmessage` handler.  `payload = none` models `JSON.parse` throwing
(truncated JSON): the catch logs and nothing else happens.  On a parsed
value the handler dispatches on `data.type` alone — the remaining fields are
never validated before the callbacks fire. -/
def onMessage (st : ClientState) (payload : Option Json) : ClientState :=
  match payload with
  | none => st
  | some data =>
    if jTypeField data = some "vitals" then
      { st with vitalsCalls := st.vitalsCalls + 1,
                distressCalls := st.distressCalls + 1,
                lastDistress := some (distressOf data) }
    else if jTypeField data = some "breathing_trace" then
      { st with traceCalls := st.traceCalls + 1 }
    else st

/-! ## SmartSpectraWebSocketServer: session set and Broadcast (part_000)

The session set `connections_` is a `std::set` mutated only by the open and
close handlers and iterated by `Broadcast`, all under one mutex.  It is
modelled as the list of sessions in the set's iteration order.  A
per-session send that throws is caught inside the loop body (logged) and
iteration continues. -/

abbrev Session := ℕ

structure ServerState where
  connections : List Session
deriving DecidableEq, Repr

/-- One `ws_server_.send(hdl, ...)` call: either it succeeds or throws.
`fails s = true` models a session whose send throws. -/
def trySend (fails : Session → Bool) (s : Session) : Except Unit Unit :=
  if fails s then Except.error () else Except.ok ()

/-- `Broadcast(message)`: iterate the session set; each send is wrapped in a
try/catch whose catch only logs.  The result is the list of sessions the
message was delivered to (in iteration order) paired with the server state
after the loop, which `Broadcast` never mutates. -/
def broadcast (st : ServerState) (fails : Session → Bool) :
    List Session × ServerState :=
  (st.connections.foldl
    (fun delivered s =>
      match trySend fails s with
      | Except.ok _ => delivered ++ [s]
      | Except.error _ => delivered)
    [], st)

/-! ## HandleMetrics extraction (part_000 lines 134-164)

A `MetricsBuffer` holds, for pulse and for breathing, a scalar strict
estimate (`metrics.pulse().strict().value()`, a float) and an ordered
sequence of rate observations each carrying a value and a confidence
(`metrics.pulse().rate(i)`).  Floats are modelled as rationals. -/

structure RateEntry where
  value : ℚ
  confidence : ℚ
deriving DecidableEq, Repr

structure MetricSeries where
  strictValue : ℚ
  rate : List RateEntry
deriving DecidableEq, Repr

structure MetricsBuffer where
  pulse : MetricSeries
  breathing : MetricSeries
deriving DecidableEq, Repr

/-- `static_cast<int>` on a float: truncation toward zero. -/
def truncTowardZero (x : ℚ) : ℤ :=
  if 0 ≤ x then ⌊x⌋ else ⌈x⌉

/-- The confidence extraction of `HandleMetrics`:
`rate_size() > 0 ? rate(rate_size() - 1).confidence() : 0.0f`,
written with the same size-guarded last-index access as the source. -/
def lastConfidence (rate : List RateEntry) : ℚ :=
  if h : 0 < rate.length then
    (rate.get ⟨rate.length - 1, by omega⟩).confidence
  else 0

/-- The vitals message assembled by `HandleMetrics` before JSON encoding. -/
structure VitalsMsg where
  timestamp : ℤ
  pulse : ℤ
  pulseConfidence : ℚ
  breathing : ℤ
  breathingConfidence : ℚ
deriving DecidableEq, Repr

/-- `HandleMetrics`: pulse and breathing values are the strict scalar
estimates cast to int; the confidences come from the last element of the
respective rate sequences, defaulting to 0 when a sequence is empty. -/
def handleMetrics (m : MetricsBuffer) (timestamp : ℤ) : VitalsMsg :=
  { timestamp := timestamp
    pulse := truncTowardZero m.pulse.strictValue
    pulseConfidence := lastConfidence m.pulse.rate
    breathing := truncTowardZero m.breathing.strictValue
    breathingConfidence := lastConfidence m.breathing.rate }

/-! ## Wire encoding and the client's decoded view

`HandleMetrics` prints the message with `std::to_string`: exact for the
int fields, and fixed-point with six fractional digits (`%f`) for the two
float confidences — i.e. the printed number is the value rounded to a
multiple of 10⁻⁶.  `encodeVitals` is the parse tree of that printed JSON
text; binary-float representation effects are not modelled. -/

def round6 (q : ℚ) : ℚ := (round (q * 1000000) : ℚ) / 1000000

def encodeVitals (v : VitalsMsg) : Json :=
  Json.obj
    [("type", Json.str "vitals"),
     ("timestamp", Json.num (v.timestamp : ℚ)),
     ("pulse", Json.num (v.pulse : ℚ)),
     ("pulseConfidence", Json.num (round6 v.pulseConfidence)),
     ("breathing", Json.num (v.breathing : ℚ)),
     ("breathingConfidence", Json.num (round6 v.breathingConfidence))]

/-- The typed view the client's `VitalsData` interface promises of a parsed
vitals payload (all JS numbers). -/
structure DecodedVitals where
  timestamp : ℚ
  pulse : ℚ
  pulseConfidence : ℚ
  breathing : ℚ
  breathingConfidence : ℚ
deriving DecidableEq, Repr

/-- Decoding a parsed payload into the `VitalsData` view: the `type`
discriminator must be `"vitals"` and each declared field is read as a
number. -/
def decodeVitals (j : Json) : Option DecodedVitals :=
  if jTypeField j = some "vitals" then
    match jNumField j "timestamp", jNumField j "pulse",
          jNumField j "pulseConfidence", jNumField j "breathing",
          jNumField j "breathingConfidence" with
    | some ts, some p, some pc, some b, some bc =>
      some { timestamp := ts, pulse := p, pulseConfidence := pc,
             breathing := b, breathingConfidence := bc }
    | _, _, _, _, _ => none
  else none

/-! ## Host process setup sequence (part_000: `main` and `Start`)

`main` exits with `EXIT_FAILURE` (1) when the credential argument is
missing; otherwise it calls `Start`, which returns early (without calling
`container_->Run()`) when a producer callback registration or
`Initialize()` fails, and `main` then falls through to `EXIT_SUCCESS` (0).
`SetupEnv` records which of the three setup steps would succeed. -/

structure SetupEnv where
  coreCallbackOk : Bool
  edgeCallbackOk : Bool
  initOk : Bool
  runOk : Bool
deriving DecidableEq, Repr

inductive StartOutcome : Type where
  | coreCallbackFailed : StartOutcome
  | edgeCallbackFailed : StartOutcome
  | initFailed : StartOutcome
  | ran (runOk : Bool) : StartOutcome
deriving DecidableEq, Repr

/-- `SmartSpectraWebSocketServer::Start`: the three guarded setup steps in
source order; each failure logs and returns before `container_->Run()`. -/
def startServer (env : SetupEnv) : StartOutcome :=
  if ¬env.coreCallbackOk then StartOutcome.coreCallbackFailed
  else if ¬env.edgeCallbackOk then StartOutcome.edgeCallbackFailed
  else if ¬env.initOk then StartOutcome.initFailed
  else StartOutcome.ran env.runOk

/-- `main(argc, argv)`: returns the process exit code paired with the
outcome of `Start` when it was reached (`none` = usage error before
`Start`).  `args` is the full argv including the program name, so the
credential check `argc < 2` is `args.length < 2`. -/
def mainRun (args : List String) (env : SetupEnv) : ℕ × Option StartOutcome :=
  if args.length < 2 then (1, none)
  else (0, some (startServer env))

/-! ## Helper lemmas -/

/-- The size-guarded last-index confidence access equals taking the last
element of the sequence (confidence 0 when the sequence is empty). -/
theorem lastConfidence_eq_getLast (rate : List RateEntry) :
    lastConfidence rate = ((rate.getLast?).map RateEntry.confidence).getD 0 := by
  by_cases h : rate = []
  · subst h; rfl
  · rw [List.getLast?_eq_getLast_of_ne_nil h]
    have hl : 0 < rate.length := List.length_pos.mpr h
    simp only [lastConfidence, dif_pos hl, Option.map_some, Option.getD_some]
    congr 1
    rw [List.getLast_eq_getElem, List.get_eq_getElem]

/-- The Broadcast loop delivers to exactly the sessions whose send does not
throw, in iteration order, starting from any accumulator. -/
theorem broadcast_foldl (fails : Session → Bool) :
    ∀ (l : List Session) (acc : List Session),
      l.foldl
        (fun delivered s =>
          match trySend fails s with
          | Except.ok _ => delivered ++ [s]
          | Except.error _ => delivered)
        acc = acc ++ l.filter (fun s => !(fails s)) := by
  intro l
  induction l with
  | nil => intro acc; simp
  | cons s rest ih =>
    intro acc
    rw [List.foldl_cons, ih]
    by_cases hs : fails s
    · simp [trySend, hs, List.filter_cons]
    · simp [trySend, hs, List.filter_cons]

/-- Rounding to six decimal places fixes every integer multiple of 10⁻⁶. -/
theorem round6_int_over_million (a : ℤ) :
    round6 ((a : ℚ) / 1000000) = (a : ℚ) / 1000000 := by
  unfold round6
  rw [div_mul_cancel₀ _ (by norm_num : (1000000 : ℚ) ≠ 0), round_intCast]

/-- Decoding the encoded wire object recovers the integer fields exactly and
each confidence rounded to six decimal places. -/
theorem decode_encode (v : VitalsMsg) :
    decodeVitals (encodeVitals v)
      = some { timestamp := (v.timestamp : ℚ), pulse := (v.pulse : ℚ),
               pulseConfidence := round6 v.pulseConfidence,
               breathing := (v.breathing : ℚ),
               breathingConfidence := round6 v.breathingConfidence } := by
  rfl

/-! ## Claim theorems -/

/-- Claim C1: the distress evaluation performed on a received vitals sample
(the expression shared by the real client's onmessage handler and the mock
client's generateVitals) returns true iff pulse > 100 and breathing > 20;
in particular it is false at pulse = 100 and at breathing = 20, and the real
client's evaluation on a parsed vitals payload with integer fields agrees
with it. -/
theorem distress_threshold (p b : ℤ) :
    (isDistressed p b = true ↔ (100 < p ∧ 20 < b))
    ∧ isDistressed 100 b = false
    ∧ isDistressed p 20 = false
    ∧ distressOf (Json.obj [("pulse", Json.num (p : ℚ)),
                            ("breathing", Json.num (b : ℚ))])
        = isDistressed p b := by
  have hp : ((p : ℚ) > 100) ↔ (p > 100) := by exact_mod_cast Iff.rfl
  have hb : ((b : ℚ) > 20) ↔ (b > 20) := by exact_mod_cast Iff.rfl
  refine ⟨?_, ?_, ?_, ?_⟩
  · simp [isDistressed]
  · simp [isDistressed]
  · simp [isDistressed]
  · simp [distressOf, jNumField, jField, jLookup, isDistressed, hp, hb]

/-- Claim C1 witness at pulse 101 / breathing 21 (distressed) and at the
boundary pulse 100 (not distressed). -/
theorem distress_threshold_witness :
    isDistressed 101 21 = true ∧ isDistressed 100 21 = false :=
  ⟨(distress_threshold 101 21).1.mpr (by decide),
   (distress_threshold 100 21).2.1⟩

/-- Claim C2: when the send to session k throws and every other send
succeeds, Broadcast still delivers to exactly the sessions other than k, in
iteration order, and leaves the session set unchanged (k is not removed). -/
theorem broadcast_survives_failing_session (st : ServerState) (k : Session) :
    (broadcast st (fun s => s == k)).1
      = st.connections.filter (fun s => !(s == k))
    ∧ (broadcast st (fun s => s == k)).2 = st := by
  constructor
  · show st.connections.foldl _ [] = _
    rw [broadcast_foldl]
    simp
  · rfl

/-- Claim C10: the emitted pulse and breathing integers are the producer's
scalar estimates cast with truncation toward zero, hence equal to the floor
of every non-negative estimate. -/
theorem emitted_rates_floor_nonneg (m : MetricsBuffer) (ts : ℤ)
    (hp : 0 ≤ m.pulse.strictValue) (hb : 0 ≤ m.breathing.strictValue) :
    (handleMetrics m ts).pulse = ⌊m.pulse.strictValue⌋
    ∧ (handleMetrics m ts).breathing = ⌊m.breathing.strictValue⌋ := by
  constructor
  · show truncTowardZero m.pulse.strictValue = _
    rw [truncTowardZero, if_pos hp]
  · show truncTowardZero m.breathing.strictValue = _
    rw [truncTowardZero, if_pos hb]

/-- Claim C10 witness: estimates 72.9 and 14.7 are emitted as 72 and 14
(truncation, not rounding to nearest). -/
theorem emitted_rates_floor_nonneg_witness :
    (handleMetrics { pulse := { strictValue := 729/10, rate := [] },
                     breathing := { strictValue := 147/10, rate := [] } } 0).pulse = 72
    ∧ (handleMetrics { pulse := { strictValue := 729/10, rate := [] },
                       breathing := { strictValue := 147/10, rate := [] } } 0).breathing = 14 := by
  have h := emitted_rates_floor_nonneg
    { pulse := { strictValue := 729/10, rate := [] },
      breathing := { strictValue := 147/10, rate := [] } } 0
    (by norm_num) (by norm_num)
  refine ⟨h.1.trans ?_, h.2.trans ?_⟩
  · norm_num [Int.floor_eq_iff]
  · norm_num [Int.floor_eq_iff]

/-- Claim C3 (code bug): on a connected client, an explicit `disconnect()`
cancels the timer and closes the transport, but the close event that the
explicit `close()` itself triggers then finds the timer field null and
schedules a 3000 ms reconnect — contradicting the documented behaviour that
no reconnect is ever scheduled as a consequence of an explicit disconnect. -/
theorem disconnect_then_close_schedules_reconnect :
    (disconnect (onOpen (connect initClient))).timerField = none
    ∧ (disconnect (onOpen (connect initClient))).wsState = none
    ∧ (onClose (disconnect (onOpen (connect initClient)))).timerPending = true
    ∧ (onClose (disconnect (onOpen (connect initClient)))).timerField = some 3000 := by
  decide

/-- Claim C4 counterexample: a client whose socket is still CONNECTING does
not trigger the `readyState === OPEN` guard, so a second `connect()` opens a
second transport (the construction counter goes from 1 to 2). -/
theorem connect_while_connecting_opens_second_transport :
    (connect initClient).wsState = some ReadyState.connecting
    ∧ (connect initClient).transportsOpened = 1
    ∧ (connect (connect initClient)).transportsOpened = 2 := by
  decide

/-- Claim C4 (amended): calling `connect()` while the transport is OPEN is a
no-op — the state is unchanged, so no second transport is opened and the
connected callback is not fired again. -/
theorem connect_noop_when_open (st : ClientState)
    (h : st.wsState = some ReadyState.isOpen) :
    connect st = st := by
  simp [connect, h]

/-- Claim C4 witness: connect is a no-op on the state reached after a
successful open. -/
theorem connect_noop_when_open_witness :
    connect (onOpen (connect initClient)) = onOpen (connect initClient) :=
  connect_noop_when_open (onOpen (connect initClient)) rfl

/-- Claim C5 counterexample: once the reconnect timer has fired (a state
reachable by connect, open, close, timer fired), its spent handle is still
stored, so the next close event — received while no reconnect timer is
pending — fires the disconnected callback but schedules no reconnect at
all, instead of exactly one. -/
theorem close_with_spent_timer_schedules_nothing :
    (timerFires (onClose (onOpen (connect initClient)))).timerPending = false
    ∧ (onClose (timerFires (onClose (onOpen (connect initClient))))).timerPending = false
    ∧ (onClose (timerFires (onClose (onOpen (connect initClient))))).timerField
        = (timerFires (onClose (onOpen (connect initClient)))).timerField
    ∧ (onClose (timerFires (onClose (onOpen (connect initClient))))).disconnectedCalls
        = (timerFires (onClose (onOpen (connect initClient)))).disconnectedCalls + 1 := by
  decide

/-- Claim C5 (amended): a close event received while the reconnect-timer
field is null fires the disconnected callback exactly once, clears the
transport handle, and stores exactly one pending reconnect timer with the
fixed 3000 ms delay. -/
theorem close_schedules_single_reconnect (st : ClientState)
    (h : st.timerField = none) :
    onClose st = { st with disconnectedCalls := st.disconnectedCalls + 1,
                           wsState := none,
                           timerField := some 3000,
                           timerPending := true } := by
  simp [onClose, h]

/-- Claim C5 witness: the close event on a freshly opened client. -/
theorem close_schedules_single_reconnect_witness :
    onClose (onOpen (connect initClient))
      = { wsState := none, timerField := some 3000, timerPending := true,
          connectedCalls := 1, disconnectedCalls := 1, vitalsCalls := 0,
          distressCalls := 0, traceCalls := 0, transportsOpened := 1,
          lastDistress := none } := by
  rw [close_schedules_single_reconnect (onOpen (connect initClient)) rfl]
  decide

/-- Claim C6 counterexample: the malformed payload `{"type":"vitals"}`
(missing every vitals field) still fires the vitals and distress consumer
callbacks, because the handler dispatches on the `type` discriminator
without validating the remaining fields. -/
theorem vitals_without_fields_still_fires_callbacks :
    (onMessage initClient (some (Json.obj [("type", Json.str "vitals")]))).vitalsCalls = 1
    ∧ (onMessage initClient (some (Json.obj [("type", Json.str "vitals")]))).distressCalls = 1
    ∧ (onMessage initClient (some (Json.obj [("type", Json.str "vitals")]))).lastDistress
        = some false := by
  constructor
  · rfl
  constructor
  · rfl
  · rfl

/-- Claim C6 (amended): no received payload ever changes the connection
state (transport handle, timer, connection callbacks) from inside the
message handler; a payload that fails to parse, or whose `type`
discriminator is neither `"vitals"` nor `"breathing_trace"`, fires no
consumer callback at all. -/
theorem malformed_message_keeps_connection (st : ClientState)
    (payload : Option Json) :
    ((onMessage st payload).wsState = st.wsState
     ∧ (onMessage st payload).timerField = st.timerField
     ∧ (onMessage st payload).timerPending = st.timerPending
     ∧ (onMessage st payload).connectedCalls = st.connectedCalls
     ∧ (onMessage st payload).disconnectedCalls = st.disconnectedCalls)
    ∧ (payload = none → onMessage st payload = st)
    ∧ (∀ data, payload = some data →
        jTypeField data ≠ some "vitals" →
        jTypeField data ≠ some "breathing_trace" →
        onMessage st payload = st) := by
  refine ⟨?_, ?_, ?_⟩
  · match payload with
    | none => exact ⟨rfl, rfl, rfl, rfl, rfl⟩
    | some data =>
      show ((if jTypeField data = some "vitals" then _ else _) : ClientState).wsState = _ ∧ _
      by_cases h1 : jTypeField data = some "vitals"
      · simp [onMessage, h1]
      · by_cases h2 : jTypeField data = some "breathing_trace"
        · simp [onMessage, h1, h2]
        · simp [onMessage, h1, h2]
  · intro h; subst h; rfl
  · intro data h h1 h2; subst h
    simp [onMessage, h1, h2]

/-- Claim C6 witness: a parse failure (`none`) and an unrecognized payload
(`42`) each leave the client state exactly as it was. -/
theorem malformed_message_keeps_connection_witness :
    onMessage initClient none = initClient
    ∧ onMessage initClient (some (Json.num 42)) = initClient :=
  ⟨(malformed_message_keeps_connection initClient none).2.1 rfl,
   (malformed_message_keeps_connection initClient (some (Json.num 42))).2.2
     (Json.num 42) rfl (by simp [jTypeField, jField]) (by simp [jTypeField, jField])⟩

/-- Claim C7 counterexample: in a buffer whose pulse-rate sequence ends in
the entry {102, 0.95} but whose scalar strict estimate is 68, the emitted
pulse is 68, not the 102 of the last rate entry — the pulse value does not
come from the rate sequence. -/
theorem handleMetrics_value_not_from_rate_seq :
    (handleMetrics
      { pulse := { strictValue := 68,
                   rate := [{ value := 68, confidence := 9/10 },
                            { value := 102, confidence := 19/20 }] },
        breathing := { strictValue := 14,
                       rate := [{ value := 14, confidence := 4/5 },
                                { value := 22, confidence := 17/20 }] } } 0).pulse = 68
    ∧ ({ pulse := { strictValue := 68,
                    rate := [{ value := 68, confidence := 9/10 },
                             { value := 102, confidence := 19/20 }] },
         breathing := { strictValue := 14,
                        rate := [{ value := 14, confidence := 4/5 },
                                 { value := 22, confidence := 17/20 }] } } :
            MetricsBuffer).pulse.rate.getLast?
        = some { value := 102, confidence := 19/20 }
    ∧ (68 : ℤ) ≠ 102 := by
  refine ⟨?_, rfl, by decide⟩
  show truncTowardZero 68 = 68
  rw [truncTowardZero, if_pos (by norm_num)]
  norm_num

/-- Claim C7 (amended): OnMetricsAvailable takes each confidence from the
last element of the corresponding rate sequence (zero default when the
sequence is empty) while the pulse and breathing values are the buffer's
scalar strict estimates cast to int; with strict estimates 102 and 22 and
the rate sequences of the scenario, the emitted sample is pulse = 102,
pulseConfidence = 0.95, breathing = 22, breathingConfidence = 0.85, and the
distress rule evaluates to true on it. -/
theorem handleMetrics_extraction (m : MetricsBuffer) (ts : ℤ) :
    ((handleMetrics m ts).pulseConfidence
        = ((m.pulse.rate.getLast?).map RateEntry.confidence).getD 0
     ∧ (handleMetrics m ts).breathingConfidence
        = ((m.breathing.rate.getLast?).map RateEntry.confidence).getD 0
     ∧ (handleMetrics m ts).pulse = truncTowardZero m.pulse.strictValue
     ∧ (handleMetrics m ts).breathing = truncTowardZero m.breathing.strictValue)
    ∧ (m.pulse.strictValue = 102 →
       m.pulse.rate = [{ value := 68, confidence := 9/10 },
                       { value := 102, confidence := 19/20 }] →
       m.breathing.strictValue = 22 →
       m.breathing.rate = [{ value := 14, confidence := 4/5 },
                           { value := 22, confidence := 17/20 }] →
       handleMetrics m ts
         = { timestamp := ts, pulse := 102, pulseConfidence := 19/20,
             breathing := 22, breathingConfidence := 17/20 }
       ∧ isDistressed 102 22 = true) := by
  refine ⟨⟨lastConfidence_eq_getLast m.pulse.rate,
           lastConfidence_eq_getLast m.breathing.rate, rfl, rfl⟩, ?_⟩
  intro hps hpr hbs hbr
  refine ⟨?_, by decide⟩
  simp only [handleMetrics, hps, hpr, hbs, hbr]
  rfl

/-- Claim C7 witness: the scenario buffer itself, at timestamp 5. -/
theorem handleMetrics_extraction_witness :
    handleMetrics
      { pulse := { strictValue := 102,
                   rate := [{ value := 68, confidence := 9/10 },
                            { value := 102, confidence := 19/20 }] },
        breathing := { strictValue := 22,
                       rate := [{ value := 14, confidence := 4/5 },
                                { value := 22, confidence := 17/20 }] } } 5
      = { timestamp := 5, pulse := 102, pulseConfidence := 19/20,
          breathing := 22, breathingConfidence := 17/20 }
    ∧ isDistressed 102 22 = true :=
  (handleMetrics_extraction
    { pulse := { strictValue := 102,
                 rate := [{ value := 68, confidence := 9/10 },
                          { value := 102, confidence := 19/20 }] },
      breathing := { strictValue := 22,
                     rate := [{ value := 14, confidence := 4/5 },
                              { value := 22, confidence := 17/20 }] } } 5).2
    rfl rfl rfl rfl

/-- Claim C8 counterexample: when the credential is supplied but the
producer's core-metrics callback registration is rejected, Start returns
before running the producer, yet main falls through to EXIT_SUCCESS — the
process exit code is 0, not non-zero. -/
theorem setup_failure_exit_code_zero :
    (mainRun ["helper", "KEY"]
       { coreCallbackOk := false, edgeCallbackOk := true,
         initOk := true, runOk := true }).2
      = some StartOutcome.coreCallbackFailed
    ∧ (mainRun ["helper", "KEY"]
         { coreCallbackOk := false, edgeCallbackOk := true,
           initOk := true, runOk := true }).1 = 0 := by
  decide

/-- Claim C8 (amended): a missing credential argument exits with the
non-zero code 1 before any setup step; a rejected producer-callback
registration or an initialization failure stops the startup sequence before
the producer run loop, but the process then exits with code 0; the producer
is run only when every setup step succeeded. -/
theorem setup_failure_behavior (args : List String) (env : SetupEnv) :
    (args.length < 2 → mainRun args env = (1, none))
    ∧ (2 ≤ args.length → env.coreCallbackOk = false →
        mainRun args env = (0, some StartOutcome.coreCallbackFailed))
    ∧ (2 ≤ args.length → env.coreCallbackOk = true → env.edgeCallbackOk = false →
        mainRun args env = (0, some StartOutcome.edgeCallbackFailed))
    ∧ (2 ≤ args.length → env.coreCallbackOk = true → env.edgeCallbackOk = true →
        env.initOk = false →
        mainRun args env = (0, some StartOutcome.initFailed))
    ∧ (∀ b, (mainRun args env).2 = some (StartOutcome.ran b) →
        env.coreCallbackOk = true ∧ env.edgeCallbackOk = true ∧ env.initOk = true) := by
  refine ⟨?_, ?_, ?_, ?_, ?_⟩
  · intro h; simp [mainRun, h]
  · intro h hc; simp [mainRun, startServer, Nat.not_lt.mpr h, hc]
  · intro h hc he; simp [mainRun, startServer, Nat.not_lt.mpr h, hc, he]
  · intro h hc he hi; simp [mainRun, startServer, Nat.not_lt.mpr h, hc, he, hi]
  · intro b hb
    by_cases h : args.length < 2
    · simp [mainRun, h] at hb
    · simp [mainRun, h, startServer] at hb
      by_cases hc : env.coreCallbackOk
      · by_cases he : env.edgeCallbackOk
        · by_cases hi : env.initOk
          · exact ⟨hc, he, hi⟩
          · simp [hc, he, hi] at hb
        · simp [hc, he] at hb
      · simp [hc] at hb

/-- Claim C8 witness: the usage error exits 1; a rejected callback
registration reaches Start but exits 0 without running the producer. -/
theorem setup_failure_behavior_witness :
    mainRun ["helper"]
      { coreCallbackOk := true, edgeCallbackOk := true,
        initOk := true, runOk := true } = (1, none)
    ∧ mainRun ["helper", "KEY"]
        { coreCallbackOk := true, edgeCallbackOk := true,
          initOk := false, runOk := true } = (0, some StartOutcome.initFailed) :=
  ⟨(setup_failure_behavior ["helper"]
      { coreCallbackOk := true, edgeCallbackOk := true,
        initOk := true, runOk := true }).1 (by decide),
   (setup_failure_behavior ["helper", "KEY"]
      { coreCallbackOk := true, edgeCallbackOk := true,
        initOk := false, runOk := true }).2.2.2.1 (by decide) rfl rfl rfl⟩

/-- Claim C9 counterexample: the valid sample with pulseConfidence 10⁻⁷
decodes, after the server's six-decimal wire encoding, to pulseConfidence 0
— the confidence value is not reproduced exactly. -/
theorem vitals_roundtrip_counterexample :
    decodeVitals (encodeVitals
      { timestamp := 0, pulse := 102, pulseConfidence := 1/10000000,
        breathing := 22, breathingConfidence := 17/20 })
      = some { timestamp := 0, pulse := 102, pulseConfidence := 0,
               breathing := 22, breathingConfidence := 17/20 }
    ∧ ((1 : ℚ)/10000000) ≠ 0 := by
  constructor
  · rw [decode_encode]
    norm_num [round6, round_eq]
  · norm_num

/-- Claim C9 (amended): decoding the wire payload produced by the server's
encoding reproduces the timestamp, pulse and breathing values exactly, and
reproduces each confidence value exactly whenever it is an integer multiple
of 10⁻⁶ (the granularity of the six-decimal fixed-point wire encoding);
in general each confidence is reproduced up to rounding at that
granularity. -/
theorem vitals_roundtrip (v : VitalsMsg)
    (hp : ∃ a : ℤ, v.pulseConfidence = (a : ℚ) / 1000000)
    (hb : ∃ a : ℤ, v.breathingConfidence = (a : ℚ) / 1000000) :
    decodeVitals (encodeVitals v)
      = some { timestamp := (v.timestamp : ℚ), pulse := (v.pulse : ℚ),
               pulseConfidence := v.pulseConfidence,
               breathing := (v.breathing : ℚ),
               breathingConfidence := v.breathingConfidence } := by
  obtain ⟨a, ha⟩ := hp
  obtain ⟨c, hc⟩ := hb
  rw [decode_encode, ha, hc, round6_int_over_million, round6_int_over_million]

/-- Claim C9 witness: the sample with confidences 0.95 and 0.85 (both
multiples of 10⁻⁶) round-trips exactly. -/
theorem vitals_roundtrip_witness :
    decodeVitals (encodeVitals
      { timestamp := 7, pulse := 102, pulseConfidence := 19/20,
        breathing := 22, breathingConfidence := 17/20 })
      = some { timestamp := 7, pulse := 102, pulseConfidence := 19/20,
               breathing := 22, breathingConfidence := 17/20 } := by
  have h := vitals_roundtrip
    { timestamp := 7, pulse := 102, pulseConfidence := 19/20,
      breathing := 22, breathingConfidence := 17/20 }
    ⟨950000, by norm_num⟩ ⟨850000, by norm_num⟩
  rw [h]
  norm_num
